import Mathlib

/-!
Shallow embedding of the computational core of the decotengu dive
decompression library: the Schreiner gas-loading equation, the
gradient-factor ascent-ceiling equation, the ZH-L16-GF model state and
coefficient tables (model.py), and the numeric primitives seq and
bisect_find (ft.py).

Real-valued float arithmetic of the source is idealised over the exact
fields: the transcendental Schreiner equation over the reals, everything
else over the rationals so that concrete instances evaluate by decide.
-/

namespace Decotengu

/-- Modelled from the spec: const.py is not among the sources; section 6 of
the specification fixes the constant WATER_VAPOUR_PRESSURE_DEFAULT to
0.0627 bar. -/
def WATER_VAPOUR_PRESSURE_DEFAULT : ℚ := 0.0627

/-- ZH_L16_GF.NUM_COMPARTMENTS from model.py. -/
def NUM_COMPARTMENTS : ℕ := 16

/-- The namedtuple Data of model.py: tissue inert-gas pressures and the
gradient-factor value carried with the state. -/
structure Data where
  tissues : List ℚ
  gf : ℚ
deriving DecidableEq

/-- eq_gf_limit from model.py: ascent-ceiling absolute pressure of one
compartment under gradient factor gf.  The source computes
p = pn2 + phe, a = (A*pn2 + 0*phe)/p, b = (B*pn2 + 0*phe)/p and returns
(p - a*gf) / (gf/b + 1.0 - gf).  The debug assert on gf is not part of the
value semantics. -/
def eq_gf_limit (gf pn2 phe n2_a_limit n2_b_limit : ℚ) : ℚ :=
  let p := pn2 + phe
  let a := (n2_a_limit * pn2 + 0 * phe) / p
  let b := (n2_b_limit * pn2 + 0 * phe) / p
  (p - a * gf) / (gf / b + 1 - gf)

/-- The state of a ZH_L16_GF model object: the variant coefficient tables
and the gradient-factor bounds set by the constructor. -/
structure ZH_L16_GF where
  N2_A : List ℚ
  N2_B : List ℚ
  N2_HALF_LIFE : List ℚ
  gf_low : ℚ
  gf_high : ℚ

/-- ZH_L16_GF.init from model.py: every compartment loaded to
0.7902 * (surface_pressure - water vapour pressure), gradient factor set
to gf_low. -/
def ZH_L16_GF.init (m : ZH_L16_GF) (surface_pressure : ℚ) : Data :=
  let p := surface_pressure - WATER_VAPOUR_PRESSURE_DEFAULT
  ⟨List.replicate NUM_COMPARTMENTS (0.7902 * p), m.gf_low⟩

/-- ZH_L16_GF.gf_limit from model.py: per-compartment ascent ceilings, in
compartment order, helium passed as 0; a missing gf argument defaults to
gf_low. -/
def ZH_L16_GF.gf_limit (m : ZH_L16_GF) (gfo : Option ℚ) (data : Data) : List ℚ :=
  let gf := gfo.getD m.gf_low
  (data.tissues.zip (m.N2_A.zip m.N2_B)).map
    (fun x => eq_gf_limit gf x.1 0 x.2.1 x.2.2)

/-- The built-in max over a nonempty sequence, as Python evaluates it:
the running maximum of the tail folded onto the head.  Python raises on an
empty sequence; the model returns 0 there and every theorem using pymax
assumes nonemptiness. -/
def pymax : List ℚ → ℚ
  | [] => 0
  | x :: xs => xs.foldl max x

/-- ZH_L16_GF.pressure_limit from model.py: max over gf_limit. -/
def ZH_L16_GF.pressure_limit (m : ZH_L16_GF) (data : Data) (gfo : Option ℚ) : ℚ :=
  pymax (m.gf_limit gfo data)

/-- The ZH_L16B_GF coefficient tables from model.py (N2 tables and the
constructor defaults gf_low = 0.3, gf_high = 0.85). -/
def zh_l16b_gf : ZH_L16_GF :=
  ⟨[1.1696, 1.0000, 0.8618, 0.7562, 0.6667, 0.5600, 0.4947, 0.4500,
    0.4187, 0.3798, 0.3497, 0.3223, 0.2850, 0.2737, 0.2523, 0.2327],
   [0.5578, 0.6514, 0.7222, 0.7825, 0.8126, 0.8434, 0.8693, 0.8910,
    0.9092, 0.9222, 0.9319, 0.9403, 0.9477, 0.9544, 0.9602, 0.9653],
   [5.0, 8.0, 12.5, 18.5, 27.0, 38.3, 54.3, 77.0, 109.0,
    146.0, 187.0, 239.0, 305.0, 390.0, 498.0, 635.0],
   0.3, 0.85⟩

/-- The ZH_L16C_GF coefficient tables from model.py. -/
def zh_l16c_gf : ZH_L16_GF :=
  ⟨[1.2599, 1.0000, 0.8618, 0.7562, 0.6200, 0.5043, 0.4410, 0.4000,
    0.3750, 0.3500, 0.3295, 0.3065, 0.2835, 0.2610, 0.2480, 0.2327],
   [0.5050, 0.6514, 0.7222, 0.7825, 0.8126, 0.8434, 0.8693, 0.8910,
    0.9092, 0.9222, 0.9319, 0.9403, 0.9477, 0.9544, 0.9602, 0.9653],
   [4.0, 8.0, 12.5, 18.5, 27.0, 38.3, 54.3, 77.0, 109.0,
    146.0, 187.0, 239.0, 305.0, 390.0, 498.0, 635.0],
   0.3, 0.85⟩

/-- Modelled from the spec: error.py is not among the sources.  The
validator failure the specification names CeilingViolated (the source
raises its EngineError there). -/
inductive EngineError where
  | ceilingViolated
deriving DecidableEq

/-- A dive step as seen by the validator: absolute pressure and model data. -/
structure Step where
  pressure : ℚ
  data : Data
deriving DecidableEq

/-- The per-step body of DecoModelValidator from model.py: compute the
pressure limit at the step data and its gf, and fail iff the step pressure
is strictly below it. -/
def DecoModelValidator.check (m : ZH_L16_GF) (s : Step) : Except EngineError Unit :=
  if s.pressure < m.pressure_limit s.data (some s.data.gf) then
    Except.error EngineError.ceilingViolated
  else
    Except.ok ()

/-- The two failures seq in ft.py can raise: the explicit ValueError on a
wrong step sign (BadStep in the spec) and Python's ZeroDivisionError from
the count computation when step is zero. -/
inductive SeqError where
  | badStep
  | zeroDivision
deriving DecidableEq

/-- Python int() on a rational: truncation toward zero. -/
def pyint (q : ℚ) : ℤ :=
  if q < 0 then -Int.floor (-q) else Int.floor q

/-- seq from ft.py.  The source checks the step sign and raises ValueError,
then computes count = int((stop - start) / step) + 1 (a ZeroDivisionError
when step is zero) and yields start + k * step for k in range(count). -/
def seq (start stp step : ℚ) : Except SeqError (List ℚ) :=
  if (start > stp ∧ step > 0) ∨ (start < stp ∧ step < 0) then
    Except.error SeqError.badStep
  else if step = 0 then
    Except.error SeqError.zeroDivision
  else
    let count := pyint ((stp - start) / step) + 1
    Except.ok ((List.range count.toNat).map (fun k => start + (k : ℚ) * step))

/-- The bisection loop of bisect_find from ft.py: while lo < hi take the
midpoint k, move lo to k + 1 when f k holds and hi to k otherwise; returns
the final (lo, hi). -/
def bisectLoop (f : ℕ → Bool) (lo hi : ℕ) : ℕ × ℕ :=
  if lo < hi then
    let k := (lo + hi) / 2
    if f k then bisectLoop f (k + 1) hi else bisectLoop f lo k
  else (lo, hi)
termination_by hi - lo
decreasing_by
  · omega
  · omega

/-- bisect_find from ft.py (saturating variant): -1 when hi ends at 0, n
when lo ends at n, otherwise hi - 1, the largest k with f k true. -/
def bisect_find (n : ℕ) (f : ℕ → Bool) : ℤ :=
  let r := bisectLoop f 0 n
  if r.2 = 0 then -1
  else if r.1 = n then (n : ℤ)
  else (r.2 : ℤ) - 1

/-- eq_schreiner from model.py, over the reals: palv = gas * (abs_p - wvp),
t = time / 60, k = log 2 / half_life, r = gas * rate, result
palv + r * (t - 1/k) - (palv - pressure - r/k) * exp (-k * t).  The debug
assert on time is not part of the value semantics. -/
noncomputable def eq_schreiner (abs_p time gas rate pressure half_life wvp : ℝ) : ℝ :=
  let palv := gas * (abs_p - wvp)
  let t := time / 60
  let k := Real.log 2 / half_life
  let r := gas * rate
  palv + r * (t - 1 / k) - (palv - pressure - r / k) * Real.exp (-k * t)

/-- A gas mix as the tissue calculator reads it: the nitrogen fraction n2
as a percentage. -/
structure GasMix where
  n2 : ℝ

/-- TissueCalculator.load_tissue from model.py: Schreiner loading with
gas fraction gas.n2 / 100, the compartment's half-life from the N2 table,
and the default water vapour pressure. -/
noncomputable def load_tissue (n2_half_life : List ℝ) (abs_p time : ℝ)
    (gas : GasMix) (rate pressure : ℝ) (tissue_no : ℕ) : ℝ :=
  eq_schreiner abs_p time (gas.n2 / 100) rate pressure
    (n2_half_life.getD tissue_no 0) ((WATER_VAPOUR_PRESSURE_DEFAULT : ℚ) : ℝ)

/-! Helper lemmas about the folded maximum, list indexing, the bisection
loop and the ceiling equation. -/

lemma le_foldl_max (xs : List ℚ) (x : ℚ) : x ≤ xs.foldl max x := by
  induction xs generalizing x with
  | nil => exact le_refl x
  | cons y ys ih => exact le_trans (le_max_left x y) (ih (max x y))

lemma mem_le_foldl_max (xs : List ℚ) (x y : ℚ) (h : y ∈ xs) : y ≤ xs.foldl max x := by
  induction xs generalizing x with
  | nil => cases h
  | cons z zs ih =>
    rcases List.mem_cons.mp h with rfl | hz
    · exact le_trans (le_max_right x y) (le_foldl_max zs (max x y))
    · exact ih (max x z) hz

lemma foldl_max_mem (xs : List ℚ) (x : ℚ) : xs.foldl max x = x ∨ xs.foldl max x ∈ xs := by
  induction xs generalizing x with
  | nil => exact Or.inl rfl
  | cons y ys ih =>
    rcases ih (max x y) with h | h
    · rcases max_choice x y with hx | hy
      · exact Or.inl (by rw [List.foldl_cons, h, hx])
      · exact Or.inr (by rw [List.foldl_cons, h, hy]; exact List.mem_cons_self y ys)
    · exact Or.inr (List.mem_cons_of_mem y h)

lemma pymax_mem (l : List ℚ) (h : l ≠ []) : pymax l ∈ l := by
  cases l with
  | nil => exact absurd rfl h
  | cons x xs =>
    rcases foldl_max_mem xs x with h1 | h1
    · show xs.foldl max x ∈ x :: xs
      rw [h1]
      exact List.mem_cons_self x xs
    · exact List.mem_cons_of_mem x h1

lemma le_pymax (l : List ℚ) (y : ℚ) (h : y ∈ l) : y ≤ pymax l := by
  cases l with
  | nil => cases h
  | cons x xs =>
    rcases List.mem_cons.mp h with rfl | hx
    · exact le_foldl_max xs y
    · exact mem_le_foldl_max xs x y hx

lemma getD_mem_of_lt (l : List ℚ) (k : ℕ) (h : k < l.length) : l.getD k 0 ∈ l := by
  rw [List.getD_eq_getElem?_getD, List.getElem?_eq_getElem h]
  exact List.getElem_mem h

lemma zipmap_getD (g : ℚ → ℚ → ℚ → ℚ) (ts as bs : List ℚ) (k : ℕ)
    (h1 : k < ts.length) (h2 : k < as.length) (h3 : k < bs.length) :
    ((ts.zip (as.zip bs)).map (fun x => g x.1 x.2.1 x.2.2)).getD k 0 =
      g (ts.getD k 0) (as.getD k 0) (bs.getD k 0) := by
  have hz : k < (ts.zip (as.zip bs)).length := by
    simp [List.length_zip]
    omega
  rw [List.getD_eq_getElem?_getD, List.getElem?_eq_getElem (by simpa using hz)]
  rw [List.getD_eq_getElem?_getD, List.getElem?_eq_getElem h1]
  rw [List.getD_eq_getElem?_getD, List.getElem?_eq_getElem h2]
  rw [List.getD_eq_getElem?_getD, List.getElem?_eq_getElem h3]
  simp [List.getElem_zip]

lemma gf_limit_getD (m : ZH_L16_GF) (d : Data) (gf : ℚ) (k : ℕ)
    (h1 : k < d.tissues.length) (h2 : k < m.N2_A.length) (h3 : k < m.N2_B.length) :
    (m.gf_limit (some gf) d).getD k 0 =
      eq_gf_limit gf (d.tissues.getD k 0) 0 (m.N2_A.getD k 0) (m.N2_B.getD k 0) :=
  zipmap_getD (fun tp av bv => eq_gf_limit gf tp 0 av bv) d.tissues m.N2_A m.N2_B k h1 h2 h3

lemma gf_limit_length (m : ZH_L16_GF) (d : Data) (gfo : Option ℚ) :
    (m.gf_limit gfo d).length =
      min d.tissues.length (min m.N2_A.length m.N2_B.length) := by
  simp [ZH_L16_GF.gf_limit, List.length_zip]

lemma bisectLoop_eq (f : ℕ → Bool) (n m : ℕ) (H : ∀ k, k < n → (f k = true ↔ k < m))
    (lo hi : ℕ) (h1 : lo ≤ m) (h2 : m ≤ hi) (h3 : hi ≤ n) :
    bisectLoop f lo hi = (m, m) := by
  unfold bisectLoop
  by_cases h : lo < hi
  · simp only [if_pos h]
    by_cases hf : f ((lo + hi) / 2) = true
    · have hlt : (lo + hi) / 2 < m := (H _ (by omega)).1 hf
      simp only [hf, if_true]
      exact bisectLoop_eq f n m H _ hi (by omega) h2 h3
    · have hge : m ≤ (lo + hi) / 2 := by
        by_contra hc
        push_neg at hc
        exact hf ((H _ (by omega)).2 hc)
      simp only [hf, if_false]
      exact bisectLoop_eq f n m H lo _ h1 hge (by omega)
  · simp only [if_neg h]
    have e1 : lo = m := by omega
    have e2 : hi = m := by omega
    rw [e1, e2]
termination_by hi - lo
decreasing_by
  · omega
  · omega

lemma eq_gf_limit_reduce (gf pn2 av bv : ℚ) (hp : pn2 ≠ 0) :
    eq_gf_limit gf pn2 0 av bv = (pn2 - av * gf) / (gf / bv + 1 - gf) := by
  unfold eq_gf_limit
  simp only [add_zero, mul_zero, zero_mul]
  rw [mul_div_assoc av pn2 pn2, div_self hp, mul_one, mul_div_assoc bv pn2 pn2,
    div_self hp, mul_one]

lemma gf_denom_ge_one (gf bv : ℚ) (hg : 0 < gf) (hb0 : 0 < bv) (hb1 : bv ≤ 1) :
    1 ≤ gf / bv + 1 - gf := by
  have h : gf ≤ gf / bv := by
    rw [le_div_iff₀ hb0]
    nlinarith
  linarith

lemma eq_gf_limit_anti (pn2 av bv gf1 gf2 : ℚ) (hp : 0 < pn2) (ha : 0 < av)
    (hb0 : 0 < bv) (hb1 : bv ≤ 1) (hg1 : 0 < gf1) (hg12 : gf1 ≤ gf2) :
    eq_gf_limit gf2 pn2 0 av bv ≤ eq_gf_limit gf1 pn2 0 av bv := by
  rw [eq_gf_limit_reduce gf2 pn2 av bv hp.ne', eq_gf_limit_reduce gf1 pn2 av bv hp.ne']
  have hg2 : 0 < gf2 := lt_of_lt_of_le hg1 hg12
  have hd1 : 0 < gf1 / bv + 1 - gf1 := lt_of_lt_of_le one_pos (gf_denom_ge_one gf1 bv hg1 hb0 hb1)
  have hd2 : 0 < gf2 / bv + 1 - gf2 := lt_of_lt_of_le one_pos (gf_denom_ge_one gf2 bv hg2 hb0 hb1)
  rw [div_le_div_iff₀ hd2 hd1]
  have hM : 0 ≤ pn2 * (1 - bv) + av * bv := by nlinarith
  have key : (pn2 - av * gf1) * (gf2 / bv + 1 - gf2) - (pn2 - av * gf2) * (gf1 / bv + 1 - gf1)
      = ((gf2 - gf1) * (pn2 * (1 - bv) + av * bv)) / bv := by
    field_simp
    ring
  have h4 : 0 ≤ ((gf2 - gf1) * (pn2 * (1 - bv) + av * bv)) / bv :=
    div_nonneg (mul_nonneg (sub_nonneg.mpr hg12) hM) hb0.le
  linarith [key, h4]

lemma eq_schreiner_rate_zero_fixed (abs_p time gas half_life wvp : ℝ) :
    eq_schreiner abs_p time gas 0 (gas * (abs_p - wvp)) half_life wvp
      = gas * (abs_p - wvp) := by
  unfold eq_schreiner
  simp

/-- Claim C1: for every absolute pressure, segment duration time > 0,
inert-gas fraction gas in (0, 1], rate, tissue pressure, half-life > 0 and
water-vapour pressure, eq_schreiner returns exactly
palv + r * (t - 1/k) - (palv - pressure - r/k) * exp (-k * t) with
palv = gas * (abs_p - wvp), t = time/60, k = log 2 / half_life and
r = gas * rate. -/
theorem eq_schreiner_spec (abs_p time gas rate pressure half_life wvp : ℝ)
    (ht : 0 < time) (hg1 : 0 < gas) (hg2 : gas ≤ 1) (hhl : 0 < half_life) :
    eq_schreiner abs_p time gas rate pressure half_life wvp =
      gas * (abs_p - wvp) + gas * rate * (time / 60 - 1 / (Real.log 2 / half_life)) -
        (gas * (abs_p - wvp) - pressure - gas * rate / (Real.log 2 / half_life)) *
          Real.exp (-(Real.log 2 / half_life) * (time / 60)) := rfl

/-- Witness for C1 at abs_p = 4, time = 60, gas = 0.79, rate = 1,
pressure = 1, half_life = 5, wvp = 0.0627. -/
theorem eq_schreiner_spec_witness :
    (0 < (60 : ℝ) ∧ 0 < (0.79 : ℝ) ∧ (0.79 : ℝ) ≤ 1 ∧ 0 < (5 : ℝ)) ∧
      eq_schreiner 4 60 0.79 1 1 5 0.0627 =
        0.79 * (4 - 0.0627) + 0.79 * 1 * (60 / 60 - 1 / (Real.log 2 / 5)) -
          (0.79 * (4 - 0.0627) - 1 - 0.79 * 1 / (Real.log 2 / 5)) *
            Real.exp (-(Real.log 2 / 5) * (60 / 60)) :=
  ⟨⟨by norm_num, by norm_num, by norm_num, by norm_num⟩,
   eq_schreiner_spec 4 60 0.79 1 1 5 0.0627 (by norm_num) (by norm_num)
     (by norm_num) (by norm_num)⟩

/-- Claim C2: for gf in (0, 1.5], pn2 > 0 and phe = 0, eq_gf_limit returns
(p - a * gf) / (gf / b + 1 - gf) with p = pn2 + phe, a, b the
pressure-weighted coefficients; with phe = 0 this reduces to
(pn2 - A * gf) / (gf / B + 1 - gf). -/
theorem eq_gf_limit_spec (gf pn2 av bv : ℚ) (hg1 : 0 < gf) (hg2 : gf ≤ 1.5)
    (hp : 0 < pn2) :
    eq_gf_limit gf pn2 0 av bv =
        ((pn2 + 0) - (av * pn2 + 0 * 0) / (pn2 + 0) * gf) /
          (gf / ((bv * pn2 + 0 * 0) / (pn2 + 0)) + 1 - gf) ∧
      eq_gf_limit gf pn2 0 av bv = (pn2 - av * gf) / (gf / bv + 1 - gf) :=
  ⟨rfl, eq_gf_limit_reduce gf pn2 av bv hp.ne'⟩

/-- Witness for C2 at gf = 0.3, pn2 = 1, A = 1.1696, B = 0.5578. -/
theorem eq_gf_limit_spec_witness :
    (0 < (0.3 : ℚ) ∧ (0.3 : ℚ) ≤ 1.5 ∧ 0 < (1 : ℚ)) ∧
      (eq_gf_limit 0.3 1 0 1.1696 0.5578 =
          ((1 + 0) - (1.1696 * 1 + 0 * 0) / (1 + 0) * 0.3) /
            (0.3 / ((0.5578 * 1 + 0 * 0) / (1 + 0)) + 1 - 0.3) ∧
        eq_gf_limit 0.3 1 0 1.1696 0.5578 =
          (1 - 1.1696 * 0.3) / (0.3 / 0.5578 + 1 - 0.3)) :=
  ⟨⟨by norm_num, by norm_num, by norm_num⟩,
   eq_gf_limit_spec 0.3 1 1.1696 0.5578 (by norm_num) (by norm_num) (by norm_num)⟩

/-- Claim C3: for data with 16 strictly positive tissue pressures and
gf in (0, 1.5], pressure_limit is the maximum of gf_limit, and gf_limit
applies the ceiling equation to each compartment k in index order with the
variant tables and helium 0: entry k of gf_limit is eq_gf_limit at index k,
pressure_limit is an element of gf_limit, and every element of gf_limit is
at most pressure_limit. -/
theorem pressure_limit_spec (m : ZH_L16_GF) (d : Data) (gf : ℚ)
    (hA : m.N2_A.length = 16) (hB : m.N2_B.length = 16)
    (hT : d.tissues.length = 16) (hpos : ∀ x ∈ d.tissues, 0 < x)
    (hg1 : 0 < gf) (hg2 : gf ≤ 1.5) :
    (∀ k, k < 16 → (m.gf_limit (some gf) d).getD k 0 =
        eq_gf_limit gf (d.tissues.getD k 0) 0 (m.N2_A.getD k 0) (m.N2_B.getD k 0)) ∧
      m.pressure_limit d (some gf) ∈ m.gf_limit (some gf) d ∧
      ∀ x ∈ m.gf_limit (some gf) d, x ≤ m.pressure_limit d (some gf) := by
  have hlen : (m.gf_limit (some gf) d).length = 16 := by
    rw [gf_limit_length, hA, hB, hT]
    simp
  refine ⟨fun k hk => gf_limit_getD m d gf k (by omega) (by omega) (by omega), ?_, ?_⟩
  · exact pymax_mem _ (List.length_pos.mp (by omega))
  · exact fun x hx => le_pymax _ x hx

/-- Witness for C3 with the B tables, 16 tissues at pressure 1 and
gf = 0.3. -/
theorem pressure_limit_spec_witness :
    (zh_l16b_gf.N2_A.length = 16 ∧ zh_l16b_gf.N2_B.length = 16 ∧
        (Data.mk (List.replicate 16 1) 0.3).tissues.length = 16 ∧
        (∀ x ∈ (Data.mk (List.replicate 16 1) 0.3).tissues, 0 < x) ∧
        0 < (0.3 : ℚ) ∧ (0.3 : ℚ) ≤ 1.5) ∧
      ((∀ k, k < 16 →
          (zh_l16b_gf.gf_limit (some 0.3) (Data.mk (List.replicate 16 1) 0.3)).getD k 0 =
            eq_gf_limit 0.3 ((Data.mk (List.replicate 16 1) 0.3).tissues.getD k 0) 0
              (zh_l16b_gf.N2_A.getD k 0) (zh_l16b_gf.N2_B.getD k 0)) ∧
        zh_l16b_gf.pressure_limit (Data.mk (List.replicate 16 1) 0.3) (some 0.3) ∈
          zh_l16b_gf.gf_limit (some 0.3) (Data.mk (List.replicate 16 1) 0.3) ∧
        ∀ x ∈ zh_l16b_gf.gf_limit (some 0.3) (Data.mk (List.replicate 16 1) 0.3),
          x ≤ zh_l16b_gf.pressure_limit (Data.mk (List.replicate 16 1) 0.3) (some 0.3)) :=
  ⟨⟨rfl, rfl, rfl, by decide, by norm_num, by norm_num⟩,
   pressure_limit_spec zh_l16b_gf (Data.mk (List.replicate 16 1) 0.3) 0.3
     rfl rfl rfl (by decide) (by norm_num) (by norm_num)⟩

/-- Claim C4: init builds a Data whose tissues list has length 16, every
entry 0.7902 * (surface_pressure - water vapour pressure), and whose gf is
the model gf_low; both variants default gf_low to 0.3. -/
theorem init_spec (m : ZH_L16_GF) (sp : ℚ) :
    (m.init sp).tissues.length = 16 ∧
      (∀ x ∈ (m.init sp).tissues, x = 0.7902 * (sp - WATER_VAPOUR_PRESSURE_DEFAULT)) ∧
      (m.init sp).gf = m.gf_low ∧ zh_l16b_gf.gf_low = 0.3 ∧ zh_l16c_gf.gf_low = 0.3 :=
  ⟨rfl, fun _ hx => List.eq_of_mem_replicate hx, rfl, rfl, rfl⟩

/-- Claim C5: the validator fails with the CeilingViolated error on a step
exactly when the step pressure is strictly below the pressure limit at the
step data and its gf; at exact equality the step is accepted. -/
theorem validator_spec (m : ZH_L16_GF) (s : Step) (h16 : s.data.tissues.length = 16) :
    (DecoModelValidator.check m s = Except.error EngineError.ceilingViolated ↔
        s.pressure < m.pressure_limit s.data (some s.data.gf)) ∧
      (s.pressure = m.pressure_limit s.data (some s.data.gf) →
        DecoModelValidator.check m s = Except.ok ()) := by
  constructor
  · unfold DecoModelValidator.check
    by_cases hlt : s.pressure < m.pressure_limit s.data (some s.data.gf)
    · simp [hlt]
    · simp [hlt]
  · intro he
    unfold DecoModelValidator.check
    rw [if_neg (by rw [he]; exact lt_irrefl _)]

/-- Witness for C5 at a step with pressure 1 over 16 unit tissues. -/
theorem validator_spec_witness :
    (Step.mk 1 (Data.mk (List.replicate 16 1) 0.3)).data.tissues.length = 16 ∧
      ((DecoModelValidator.check zh_l16b_gf (Step.mk 1 (Data.mk (List.replicate 16 1) 0.3)) =
            Except.error EngineError.ceilingViolated ↔
          (Step.mk 1 (Data.mk (List.replicate 16 1) 0.3)).pressure <
            zh_l16b_gf.pressure_limit (Step.mk 1 (Data.mk (List.replicate 16 1) 0.3)).data
              (some (Step.mk 1 (Data.mk (List.replicate 16 1) 0.3)).data.gf)) ∧
        ((Step.mk 1 (Data.mk (List.replicate 16 1) 0.3)).pressure =
            zh_l16b_gf.pressure_limit (Step.mk 1 (Data.mk (List.replicate 16 1) 0.3)).data
              (some (Step.mk 1 (Data.mk (List.replicate 16 1) 0.3)).data.gf) →
          DecoModelValidator.check zh_l16b_gf (Step.mk 1 (Data.mk (List.replicate 16 1) 0.3)) =
            Except.ok ())) :=
  ⟨rfl, validator_spec zh_l16b_gf (Step.mk 1 (Data.mk (List.replicate 16 1) 0.3)) rfl⟩

/-- Claim C6: for n at least 1 and a predicate true exactly on the prefix
below m and false from m to n, bisect_find returns m - 1 when 0 < m < n,
-1 when m = 0, and n when m = n, with no failure in the extremal cases. -/
theorem bisect_find_spec (n m : ℕ) (f : ℕ → Bool) (hn : 1 ≤ n) (hm : m ≤ n)
    (H : ∀ k, k < n → (f k = true ↔ k < m)) :
    (0 < m → m < n → bisect_find n f = (m : ℤ) - 1) ∧
      (m = 0 → bisect_find n f = -1) ∧ (m = n → bisect_find n f = (n : ℤ)) := by
  have hb : bisectLoop f 0 n = (m, m) := bisectLoop_eq f n m H 0 n (Nat.zero_le m) hm le_rfl
  unfold bisect_find
  rw [hb]
  refine ⟨fun h1 h2 => ?_, fun h0 => ?_, fun he => ?_⟩
  · rw [if_neg (by omega), if_neg (by omega)]
  · simp only [h0]
    simp
  · simp only [he]
    rw [if_neg (by omega)]
    simp

/-- Witness for C6 at n = 5, m = 3, the predicate k < 3. -/
theorem bisect_find_spec_witness :
    (1 ≤ 5 ∧ 3 ≤ 5 ∧ (∀ k, k < 5 → ((fun j => decide (j < 3)) k = true ↔ k < 3)) ∧
        0 < 3 ∧ 3 < 5) ∧
      bisect_find 5 (fun j => decide (j < 3)) = (3 : ℤ) - 1 :=
  ⟨⟨by decide, by decide, by decide, by decide, by decide⟩,
   (bisect_find_spec 5 3 (fun j => decide (j < 3)) (by decide) (by decide)
       (by decide)).1 (by decide) (by decide)⟩

/-- Counterexample for C7: with step = 0 seq does not fail with the
BadStep error; it fails with the division-by-zero error from the count
computation. -/
theorem seq_zero_step_counterexample :
    seq 0 1 0 = Except.error SeqError.zeroDivision ∧
      seq 0 1 0 ≠ Except.error SeqError.badStep := by
  constructor
  · rfl
  · intro h
    have h2 : Except.error (ε := SeqError) (α := List ℚ) SeqError.zeroDivision =
        Except.error SeqError.badStep := by
      rw [← h]
      rfl
    simp at h2

/-- Claim C7 as amended: seq fails with BadStep when the sign of step is
incompatible with the direction from start to stop (start above stop with
positive step, or start below stop with negative step); with step = 0 it
does not fail with BadStep: it fails with the division-by-zero error from
computing the count instead. -/
theorem seq_spec (start stp step : ℚ) :
    ((start > stp ∧ step > 0) ∨ (start < stp ∧ step < 0) →
        seq start stp step = Except.error SeqError.badStep) ∧
      (step = 0 → seq start stp step = Except.error SeqError.zeroDivision ∧
        seq start stp step ≠ Except.error SeqError.badStep) := by
  constructor
  · intro h
    unfold seq
    rw [if_pos h]
  · intro h
    subst h
    have hg : ¬((start > stp ∧ (0 : ℚ) > 0) ∨ (start < stp ∧ (0 : ℚ) < 0)) := by
      rintro (⟨_, h0⟩ | ⟨_, h0⟩) <;> exact absurd h0 (lt_irrefl 0)
    have he : seq start stp 0 = Except.error SeqError.zeroDivision := by
      unfold seq
      rw [if_neg hg, if_pos rfl]
    refine ⟨he, ?_⟩
    rw [he]
    intro hc
    simp at hc

/-- Witness for C7: BadStep at start 1, stop 0, step 1; the zero-step
failure at start 0, stop 0, step 0. -/
theorem seq_spec_witness :
    seq 1 0 1 = Except.error SeqError.badStep ∧
      (seq 0 0 0 = Except.error SeqError.zeroDivision ∧
        seq 0 0 0 ≠ Except.error SeqError.badStep) :=
  ⟨(seq_spec 1 0 1).1 (Or.inl ⟨by norm_num, by norm_num⟩), (seq_spec 0 0 0).2 rfl⟩

/-- Claim C8: holding the data fixed, with positive tissue pressures,
positive A entries and B entries in (0, 1], each compartment ceiling in
gf_limit is monotone non-increasing in the gradient factor. -/
theorem gf_limit_anti (m : ZH_L16_GF) (d : Data) (gf1 gf2 : ℚ) (k : ℕ)
    (hA : m.N2_A.length = 16) (hB : m.N2_B.length = 16)
    (hT : d.tissues.length = 16) (hpos : ∀ x ∈ d.tissues, 0 < x)
    (hApos : ∀ a ∈ m.N2_A, 0 < a) (hBpos : ∀ b ∈ m.N2_B, 0 < b ∧ b ≤ 1)
    (hk : k < 16) (hg1 : 0 < gf1) (hg12 : gf1 ≤ gf2) (hg2 : gf2 ≤ 1.5) :
    (m.gf_limit (some gf2) d).getD k 0 ≤ (m.gf_limit (some gf1) d).getD k 0 := by
  rw [gf_limit_getD m d gf2 k (by omega) (by omega) (by omega),
    gf_limit_getD m d gf1 k (by omega) (by omega) (by omega)]
  exact eq_gf_limit_anti _ _ _ gf1 gf2
    (hpos _ (getD_mem_of_lt d.tissues k (by omega)))
    (hApos _ (getD_mem_of_lt m.N2_A k (by omega)))
    (hBpos _ (getD_mem_of_lt m.N2_B k (by omega))).1
    (hBpos _ (getD_mem_of_lt m.N2_B k (by omega))).2 hg1 hg12

/-- Witness for C8 with the B tables, unit tissues, compartment 0 and the
gradient factors 0.3 and 0.85. -/
theorem gf_limit_anti_witness :
    (zh_l16b_gf.N2_A.length = 16 ∧ zh_l16b_gf.N2_B.length = 16 ∧
        (Data.mk (List.replicate 16 1) 0.3).tissues.length = 16 ∧
        (∀ x ∈ (Data.mk (List.replicate 16 1) 0.3).tissues, 0 < x) ∧
        (∀ a ∈ zh_l16b_gf.N2_A, 0 < a) ∧
        (∀ b ∈ zh_l16b_gf.N2_B, 0 < b ∧ b ≤ 1) ∧
        (0 : ℕ) < 16 ∧ 0 < (0.3 : ℚ) ∧ (0.3 : ℚ) ≤ 0.85 ∧ (0.85 : ℚ) ≤ 1.5) ∧
      (zh_l16b_gf.gf_limit (some 0.85) (Data.mk (List.replicate 16 1) 0.3)).getD 0 0 ≤
        (zh_l16b_gf.gf_limit (some 0.3) (Data.mk (List.replicate 16 1) 0.3)).getD 0 0 :=
  ⟨⟨rfl, rfl, rfl, by decide, by norm_num [zh_l16b_gf, List.forall_mem_cons],
     by norm_num [zh_l16b_gf, List.forall_mem_cons], by decide, by norm_num,
     by norm_num, by norm_num⟩,
   gf_limit_anti zh_l16b_gf (Data.mk (List.replicate 16 1) 0.3) 0.3 0.85 0
     rfl rfl rfl (by decide) (by norm_num [zh_l16b_gf, List.forall_mem_cons])
     (by norm_num [zh_l16b_gf, List.forall_mem_cons]) (by decide) (by norm_num)
     (by norm_num) (by norm_num)⟩

/-- Claim C9: under pn2 > 0, phe = 0, gf in (0, 1.5] and 0 < B at most 1,
every divisor in eq_gf_limit is nonzero: p is positive, b is positive and
the denominator is at least 1; the function thus never divides by zero,
and both variant N2_B tables satisfy the bound on B. -/
theorem eq_gf_limit_total (gf pn2 av bv : ℚ) (hg1 : 0 < gf) (hg2 : gf ≤ 1.5)
    (hp : 0 < pn2) (hb0 : 0 < bv) (hb1 : bv ≤ 1) :
    (0 < pn2 + 0) ∧
      (0 < (bv * pn2 + 0 * 0) / (pn2 + 0)) ∧
      (1 ≤ gf / ((bv * pn2 + 0 * 0) / (pn2 + 0)) + 1 - gf) ∧
      eq_gf_limit gf pn2 0 av bv =
        ((pn2 + 0) - (av * pn2 + 0 * 0) / (pn2 + 0) * gf) /
          (gf / ((bv * pn2 + 0 * 0) / (pn2 + 0)) + 1 - gf) ∧
      (∀ b ∈ zh_l16b_gf.N2_B, 0 < b ∧ b ≤ 1) ∧
      (∀ b ∈ zh_l16c_gf.N2_B, 0 < b ∧ b ≤ 1) := by
  have hbeq : (bv * pn2 + 0 * 0) / (pn2 + 0) = bv := by
    simp only [mul_zero, add_zero]
    rw [mul_div_assoc, div_self hp.ne', mul_one]
  refine ⟨by linarith, ?_, ?_, rfl,
    by norm_num [zh_l16b_gf, List.forall_mem_cons],
    by norm_num [zh_l16c_gf, List.forall_mem_cons]⟩
  · rw [hbeq]
    exact hb0
  · rw [hbeq]
    exact gf_denom_ge_one gf bv hg1 hb0 hb1

/-- Witness for C9 at gf = 0.3, pn2 = 1, A = 1.1696, B = 0.5578. -/
theorem eq_gf_limit_total_witness :
    (0 < (0.3 : ℚ) ∧ (0.3 : ℚ) ≤ 1.5 ∧ 0 < (1 : ℚ) ∧ 0 < (0.5578 : ℚ) ∧
        (0.5578 : ℚ) ≤ 1) ∧
      ((0 < (1 : ℚ) + 0) ∧
        (0 < (0.5578 * 1 + 0 * 0) / ((1 : ℚ) + 0)) ∧
        (1 ≤ 0.3 / ((0.5578 * 1 + 0 * 0) / ((1 : ℚ) + 0)) + 1 - 0.3) ∧
        eq_gf_limit 0.3 1 0 1.1696 0.5578 =
          ((1 + 0) - (1.1696 * 1 + 0 * 0) / (1 + 0) * 0.3) /
            (0.3 / ((0.5578 * 1 + 0 * 0) / (1 + 0)) + 1 - 0.3) ∧
        (∀ b ∈ zh_l16b_gf.N2_B, 0 < b ∧ b ≤ 1) ∧
        (∀ b ∈ zh_l16c_gf.N2_B, 0 < b ∧ b ≤ 1)) :=
  ⟨⟨by norm_num, by norm_num, by norm_num, by norm_num, by norm_num⟩,
   eq_gf_limit_total 0.3 1 1.1696 0.5578 (by norm_num) (by norm_num) (by norm_num)
     (by norm_num) (by norm_num)⟩

/-- Claim C10: the alveolar equilibrium pressure is a fixed point of the
Schreiner loader at rate 0: a compartment already at
gas * (abs_p - wvp) stays there, and load_tissue returns an equilibrated
compartment unchanged when the rate is 0. -/
theorem eq_schreiner_equilibrium (abs_p time gas half_life wvp : ℝ)
    (hl : List ℝ) (g : GasMix) (j : ℕ) (ht : 0 < time) (hhl : 0 < half_life) :
    eq_schreiner abs_p time gas 0 (gas * (abs_p - wvp)) half_life wvp =
        gas * (abs_p - wvp) ∧
      load_tissue hl abs_p time g 0
          (g.n2 / 100 * (abs_p - ((WATER_VAPOUR_PRESSURE_DEFAULT : ℚ) : ℝ))) j =
        g.n2 / 100 * (abs_p - ((WATER_VAPOUR_PRESSURE_DEFAULT : ℚ) : ℝ)) :=
  ⟨eq_schreiner_rate_zero_fixed abs_p time gas half_life wvp,
   eq_schreiner_rate_zero_fixed abs_p time (g.n2 / 100) (hl.getD j 0) _⟩

/-- Witness for C10 at abs_p = 4, time = 60, gas = 0.79, half-life 5. -/
theorem eq_schreiner_equilibrium_witness :
    (0 < (60 : ℝ) ∧ 0 < (5 : ℝ)) ∧
      (eq_schreiner 4 60 0.79 0 (0.79 * (4 - 0.0627)) 5 0.0627 =
          0.79 * (4 - 0.0627) ∧
        load_tissue [5] 4 60 (GasMix.mk 79.02) 0
            ((GasMix.mk 79.02).n2 / 100 * (4 - ((WATER_VAPOUR_PRESSURE_DEFAULT : ℚ) : ℝ))) 0 =
          (GasMix.mk 79.02).n2 / 100 * (4 - ((WATER_VAPOUR_PRESSURE_DEFAULT : ℚ) : ℝ))) :=
  ⟨⟨by norm_num, by norm_num⟩,
   eq_schreiner_equilibrium 4 60 0.79 5 0.0627 [5] (GasMix.mk 79.02) 0
     (by norm_num) (by norm_num)⟩

end Decotengu
